import Mathlib

set_option linter.unusedVariables false

/-!
Shallow embedding of the TFM_MASTER_DREAMFIT_IOT data pipeline
(`DataFormatting.py`, `DataRetrieval.py`, `RateLimiter.py`).

Times are "HH:MM:SS" strings; machine integers are modelled as `Int`/`Nat`;
Python floats that arise only from dividing integers (averages, backoff
multiples) are modelled as `ℚ`; a Python `ValueError` raised by
`datetime.strptime` is modelled as `Option.none`.
-/

/-- One intraday heart-rate sample: `{time: "HH:MM:SS", value: int}`. -/
structure Sample where
  time : String
  value : Int
deriving Repr, DecidableEq

/-- Split a character list on a separator character (the groups between
occurrences of `c`, in order), mirroring `str.split` / the `:` structure of
the `"%H:%M:%S"` regular expression. -/
def splitCols (c : Char) : List Char → List (List Char)
  | [] => [[]]
  | x :: xs =>
    let r := splitCols c xs
    if x = c then [] :: r
    else match r with
      | [] => [[x]]
      | g :: gs => (x :: g) :: gs

/-- Decimal digit value of a character, `none` for a non-digit. -/
def charDigit (c : Char) : Option Nat :=
  if '0' ≤ c ∧ c ≤ '9' then some (c.toNat - Char.toNat '0') else none

/-- Accumulating decimal parse of a digit string. -/
def digitsToNatGo (acc : Nat) : List Char → Option Nat
  | [] => some acc
  | c :: cs => do
    let d ← charDigit c
    digitsToNatGo (acc * 10 + d) cs

/-- Decimal parse of a non-empty all-digit character list. -/
def digitsToNat : List Char → Option Nat
  | [] => none
  | c :: cs => digitsToNatGo 0 (c :: cs)

/-- One field of `datetime.strptime` with a two-digit directive (`%H`, `%M`,
`%S`): accepts 1 or 2 digits, value at most `bound`. -/
def parseField (cs : List Char) (bound : Nat) : Option Nat :=
  if cs.length = 0 ∨ 2 < cs.length then none
  else match digitsToNat cs with
    | some n => if n ≤ bound then some n else none
    | none => none

/-- `datetime.strptime(s, "%H:%M:%S")`, reduced to seconds since midnight.
`%H` ranges over 00–23; minutes and seconds over 00–59 (a parsed second of
60/61 is rejected by the `datetime` constructor). `none` models the raised
`ValueError`. -/
def strptime_HMS (s : String) : Option Nat :=
  match splitCols ':' s.toList with
  | [h, m, sec] => do
    let hv ← parseField h 23
    let mv ← parseField m 59
    let sv ← parseField sec 59
    pure (hv * 3600 + mv * 60 + sv)
  | _ => none

/-- `DataExtractor.calculate_duration` (DataFormatting.py lines 102–121):
`"N/A"` on either side yields 0; otherwise parse both times and, when
`end < start`, add one day to `end` before subtracting. -/
def calculate_duration (start_time end_time : String) : Option Int :=
  if start_time = "N/A" ∨ end_time = "N/A" then some 0
  else do
    let s ← strptime_HMS start_time
    let e ← strptime_HMS end_time
    let e' : Int := if (e : Int) < (s : Int) then (e : Int) + 86400 else (e : Int)
    pure (e' - (s : Int))

/-- `DataExtractor.format_duration` (lines 56–69). -/
def format_duration (total_seconds : Int) : String :=
  let hours := total_seconds / 3600
  let minutes := (total_seconds % 3600) / 60
  let seconds := total_seconds % 60
  s!"{hours} hours {minutes} minutes {seconds} seconds"

/-- Threshold classification of one sample (`'active' if entry['value'] > 110
else 'resting'`), `true` = active. -/
def is_active (e : Sample) : Bool := 110 < e.value

/-- The loop of `calculate_period_durations` (lines 138–155) after the first
sample has opened a run: `act`/`rst` are the running totals,
`start` = `current_period_start`, `ptype` = `current_period_type`,
`prev` = the previous entry's time (`data[i-1]['time']`). The final close
against the last sample's time is the `[]` case. -/
def calculate_period_durations_go (act rst : Int) (start : String) (ptype : Bool)
    (prev : String) : List Sample → Option (Int × Int)
  | [] => do
    let d ← calculate_duration start prev
    pure (if ptype then (act + d, rst) else (act, rst + d))
  | e :: rest =>
    if is_active e = ptype then
      calculate_period_durations_go act rst start ptype e.time rest
    else do
      let d ← calculate_duration start prev
      if ptype then
        calculate_period_durations_go (act + d) rst e.time (is_active e) e.time rest
      else
        calculate_period_durations_go act (rst + d) e.time (is_active e) e.time rest

/-- The numeric totals computed inside `calculate_period_durations`
(lines 123–156): total active seconds and total resting seconds. Empty input
yields `(0, 0)`. -/
def calculate_period_durations_totals : List Sample → Option (Int × Int)
  | [] => some (0, 0)
  | e :: rest => calculate_period_durations_go 0 0 e.time (is_active e) e.time rest

/-- `DataExtractor.calculate_period_durations` (lines 123–157): the totals,
formatted with `format_duration`. -/
def calculate_period_durations (data : List Sample) : Option (String × String) :=
  (calculate_period_durations_totals data).map
    (fun p => (format_duration p.1, format_duration p.2))

/-- Time of the last sample of `prev :: rest` (`data[-1]['time']`). -/
def last_time (prev : String) : List Sample → String
  | [] => prev
  | e :: rest => last_time e.time rest

/-- The three Fitbit rate-limit response headers read by
`RateLimitManager.update_rate_limit`; a header's value is modelled as an
integer (the code applies `int()` at every use site), `none` = header absent. -/
structure RespHeaders where
  fitbit_rate_limit_limit : Option Int
  fitbit_rate_limit_remaining : Option Int
  fitbit_rate_limit_reset : Option Int
deriving Repr, DecidableEq

/-- `RateLimitManager.rate_limit`, the shared quota record. -/
structure RateLimit where
  limit : Int
  remaining : Int
  reset : Int
deriving Repr, DecidableEq

/-- Initial class-level value of `RateLimitManager.rate_limit`
(RateLimiter.py lines 5–9). -/
def rate_limit_init : RateLimit := { limit := 150, remaining := 150, reset := 0 }

/-- `RateLimitManager.update_rate_limit` (RateLimiter.py lines 11–21):
each field is `headers.get(named_header, previous_value)`. -/
def update_rate_limit (headers : RespHeaders) (rl : RateLimit) : RateLimit :=
  { limit := headers.fitbit_rate_limit_limit.getD rl.limit,
    remaining := headers.fitbit_rate_limit_remaining.getD rl.remaining,
    reset := headers.fitbit_rate_limit_reset.getD rl.reset }

/-- One HTTP response as seen by `get_data`: status code plus the rate-limit
headers. -/
structure Response where
  status : Nat
  headers : RespHeaders
deriving Repr, DecidableEq

/-- A response with the given status and no rate-limit headers. -/
def resp (status : Nat) : Response := ⟨status, ⟨none, none, none⟩⟩

/-- Mutable state touched by `get_data` for one resource kind: the
success/failure counters for that resource, `total_requests`, the sequence of
`time.sleep` amounts performed (in seconds, as exact rationals), and the
shared rate-limit record. -/
structure FetchState where
  successful : Nat
  failed : Nat
  total_requests : Nat
  sleeps : List ℚ
  rate_limit : RateLimit
deriving Repr, DecidableEq

/-- Fresh `FitbitDataRetriever` counters with the initial shared quota. -/
def fetch_state_init : FetchState :=
  { successful := 0, failed := 0, total_requests := 0, sleeps := [],
    rate_limit := rate_limit_init }

/-- Result of `get_data`: `payload` = returned `response.json()`;
`not_available` = returned `None` after exhausting retries. -/
inductive FetchOutcome where
  | payload (st : FetchState)
  | not_available (st : FetchState)
deriving Repr, DecidableEq

def FetchOutcome.state : FetchOutcome → FetchState
  | .payload st => st
  | .not_available st => st

def FetchOutcome.isPayload : FetchOutcome → Bool
  | .payload _ => true
  | .not_available _ => false

/-- The while-loop of `FitbitDataRetriever.get_data`
(DataRetrieval.py lines 91–118). `responses` supplies the server's response
for each successive request issued; the outer `none` means the scenario list
ran out while the loop still wanted to issue a request. Per iteration:
update the rate limit from the headers; 200 → success; 429 → sleep
`reset + 1` when the updated reset is positive, otherwise
`(attempt+1) * backoff_factor`, increment attempt, no failure count;
any other status → sleep `(attempt+1) * backoff_factor`, increment attempt
and the failure counter. -/
def get_data_go (retries : Nat) (backoff_factor : ℚ) :
    List Response → Nat → FetchState → Option FetchOutcome
  | responses, attempt, st =>
    if attempt < retries then
      match responses with
      | [] => none
      | r :: rest =>
        let st1 : FetchState :=
          { st with rate_limit := update_rate_limit r.headers st.rate_limit }
        if r.status = 200 then
          some (.payload { st1 with successful := st1.successful + 1,
                                    total_requests := st1.total_requests + 1 })
        else if r.status = 429 then
          if st1.rate_limit.reset > 0 then
            get_data_go retries backoff_factor rest (attempt + 1)
              { st1 with sleeps := st1.sleeps ++ [(st1.rate_limit.reset : ℚ) + 1] }
          else
            get_data_go retries backoff_factor rest (attempt + 1)
              { st1 with sleeps := st1.sleeps ++ [((attempt : ℚ) + 1) * backoff_factor] }
        else
          get_data_go retries backoff_factor rest (attempt + 1)
            { st1 with sleeps := st1.sleeps ++ [((attempt : ℚ) + 1) * backoff_factor],
                       failed := st1.failed + 1,
                       total_requests := st1.total_requests + 1 }
    else some (.not_available st)

/-- `FitbitDataRetriever.get_data` with its default `retries=3`,
`backoff_factor=1.5` passed explicitly; `attempt` starts at 0. -/
def get_data (retries : Nat) (backoff_factor : ℚ) (responses : List Response)
    (st : FetchState) : Option FetchOutcome :=
  get_data_go retries backoff_factor responses 0 st

/-- The fixed resource set of `get_all_data_for_date_ranges`
(DataRetrieval.py line 168). -/
def resources_list : List String :=
  ["steps", "heart", "calories", "sleep", "spo2", "rate"]

/-- `FitbitDataRetriever.check_not_exceeded` (lines 189–195): `true` means
the run is aborted via `sys.exit(1)`. -/
def check_not_exceeded (resources : List String) (num_days remaining : Int) : Bool :=
  (resources.length : Int) * num_days > remaining

/-- Pre-flight check and request enumeration of
`get_all_data_for_date_ranges` (lines 155–187). Dates are modelled as day
ordinals; `num_days = (end - start).days + 1` (inclusive range). `none` means
the run aborted in `check_not_exceeded` before issuing any request;
otherwise the (date, resource) pairs issued, dates outer, resources inner. -/
def get_all_data_for_date_ranges (start_ord end_ord remaining : Int) :
    Option (List (Int × String)) :=
  let num_days := end_ord - start_ord + 1
  if check_not_exceeded resources_list num_days remaining then none
  else some ((List.range num_days.toNat).flatMap
    (fun n => resources_list.map (fun r => (start_ord + (n : Int), r))))

/-- One row of the outer-joined table produced in
`join_and_save_combined_data`: the sleep-log identifier cell (`none` = null)
plus the remaining columns as name/value pairs. -/
structure CombinedRow where
  logId : Option Int
  fields : List (String × String)
deriving Repr, DecidableEq

/-- The outer-joined DataFrame: whether some resource contributed a `logId`
column, and the rows. -/
structure CombinedTable where
  has_logId_column : Bool
  rows : List CombinedRow
deriving Repr, DecidableEq

/-- DataFormatting.py lines 484–485: `if 'logId' not in combined_df.columns:
combined_df['logId'] = None` — synthesize a null-filled logId column when no
resource contributed one. -/
def ensure_logId_column (t : CombinedTable) : CombinedTable :=
  if t.has_logId_column then t
  else { has_logId_column := true,
         rows := t.rows.map (fun r => { r with logId := none }) }

/-- `complete_mask = combined_df['logId'].notnull()` (line 487). -/
def complete_mask (r : CombinedRow) : Bool := r.logId.isSome

/-- Lines 482–489 of `join_and_save_combined_data` after the outer join:
synthesize the logId column if absent, then split into
`(complete_df, incomplete_df)` by the mask and its negation. -/
def join_and_save_partition (t : CombinedTable) : List CombinedRow × List CombinedRow :=
  let t1 := ensure_logId_column t
  (t1.rows.filter complete_mask, t1.rows.filter (fun r => !complete_mask r))

/-- A concrete joined table with one complete and one incomplete row. -/
def sample_table : CombinedTable := ⟨true, [⟨some 1, []⟩, ⟨none, []⟩]⟩

/-- Python `round` on an exact rational: round half to even. -/
def pyRound (q : ℚ) : Int :=
  if q - ⌊q⌋ < 1/2 then ⌊q⌋
  else if 1/2 < q - ⌊q⌋ then ⌊q⌋ + 1
  else if ⌊q⌋ % 2 = 0 then ⌊q⌋ else ⌊q⌋ + 1

/-- Python `round(q, n)`. -/
def round_to (n : Nat) (q : ℚ) : ℚ := (pyRound (q * 10 ^ n) : ℚ) / 10 ^ n

/-- Lexicographic `<` on character lists, as Python compares strings
(code point by code point, a proper prefix is smaller). -/
def str_lt_chars : List Char → List Char → Bool
  | [], [] => false
  | [], _ :: _ => true
  | _ :: _, [] => false
  | a :: as, b :: bs =>
    if a < b then true else if b < a then false else str_lt_chars as bs

/-- Python `a < b` on strings. -/
def str_lt (a b : String) : Bool := str_lt_chars a.toList b.toList

/-- Python `a <= b` on strings. -/
def str_le (a b : String) : Bool := !str_lt b a

/-- Python `min` over a list of strings (`none` on the empty list, where
Python raises). -/
def list_min : List String → Option String
  | [] => none
  | x :: xs => some (xs.foldl (fun acc y => if str_lt y acc then y else acc) x)

/-- Python `max` over a list of strings. -/
def list_max : List String → Option String
  | [] => none
  | x :: xs => some (xs.foldl (fun acc y => if str_lt acc y then y else acc) x)

/-- The `'activities-heart-intraday'` sub-object of one day's rate payload;
each field is `none` when its key is absent (`dict.get` defaults apply). -/
structure IntradayData where
  dataset : Option (List Sample)
  datasetInterval : Option Int
  datasetType : Option String
deriving Repr, DecidableEq

/-- One day's entry of `self.data['rate']` as read by
`extract_average_rate_data`: the `dateTime` values of `'activities-heart'`
(empty list when the key is absent or empty) and the optional intraday
sub-object. -/
structure RateEntry where
  activities_heart : List String
  activities_heart_intraday : Option IntradayData
deriving Repr, DecidableEq

/-- One output row of `extract_average_rate_data`
(DataFormatting.py lines 430–458). -/
structure AvgRateRecord where
  Id_dispositivo : String
  DateTime : String
  TimeStart : Option String
  TimeEnd : Option String
  Duration : String
  TimeStartDay : Option String
  TimeEndDay : Option String
  DurationDay : String
  TimeStartNight : Option String
  TimeEndNight : Option String
  DurationNight : String
  dataset_Interval : Int
  dataset_type : String
  average_HeartValue : ℚ
  average_HeartValue_Activity : ℚ
  average_HeartValue_Resting : ℚ
  average_HeartValue_Day : ℚ
  average_HeartValue_Day_Activity : ℚ
  average_HeartValue_Day_Activity_Duration : String
  average_HeartValue_Day_Resting : ℚ
  average_HeartValue_Day_Resting_Duration : String
  average_HeartValue_Night : ℚ
  average_HeartValue_Night_Activity : ℚ
  average_HeartValue_Night_Activity_Duration : String
  average_HeartValue_Night_Resting : ℚ
  average_HeartValue_Night_Resting_Duration : String
  BloodPreassure : String
deriving Repr, DecidableEq

/-- Mean of a list of integer values as an exact rational. -/
def mean_of (l : List Int) : ℚ := ((l.sum : Int) : ℚ) / (l.length : ℚ)

/-- Per-entry body of the `extract_average_rate_data` loop
(DataFormatting.py lines 366–458). Outer `none` models an uncaught
exception (a time string failing to parse inside `calculate_duration`);
`some none` means no record is appended for this entry. -/
def process_rate_entry (device_id : String) (entry : RateEntry) :
    Option (Option AvgRateRecord) :=
  match entry.activities_heart_intraday with
  | none => some none
  | some intraday_data =>
    let date := entry.activities_heart.head?.getD "N/A"
    let dataset := intraday_data.dataset.getD []
    let interval := intraday_data.datasetInterval.getD 1
    let dataset_type := intraday_data.datasetType.getD "minute"
    let max_rate_on_rest : Int := 110
    let night_start := "00:00"
    let night_end := "09:00"
    if dataset.isEmpty then some none
    else do
      let night_data := dataset.filter
        (fun d => str_le night_start d.time && str_lt d.time night_end)
      let day_data := dataset.filter (fun d => str_le night_end d.time)
      let day_complete := day_data.all (fun x => x.value ≠ 0)
      let night_complete := night_data.all (fun x => x.value ≠ 0)
      let no_rate_above_110 := dataset.all (fun d => d.value ≤ max_rate_on_rest)
      -- Source lines 388–389 assign `avg_heart_rate_active` and
      -- `avg_heart_rate_night_active` to 120 when these three flags all hold,
      -- but both variables are reassigned unconditionally at lines 416 and
      -- 424, so the conditional assignment has no effect on the output.
      let active_data := (dataset.filter
        (fun d => decide (max_rate_on_rest < d.value))).map (·.value)
      let resting_data := (dataset.filter
        (fun d => decide (d.value ≤ max_rate_on_rest))).map (·.value)
      let time_start_day := list_min (day_data.map (·.time))
      let time_end_day := list_max (day_data.map (·.time))
      let time_start_night := list_min (night_data.map (·.time))
      let time_end_night := list_max (night_data.map (·.time))
      let active_day_data := (day_data.filter
        (fun d => decide (max_rate_on_rest < d.value))).map (·.value)
      let resting_day_data := (day_data.filter
        (fun d => decide (d.value ≤ max_rate_on_rest))).map (·.value)
      let active_night_data := (night_data.filter
        (fun d => decide (max_rate_on_rest < d.value))).map (·.value)
      let resting_night_data := (night_data.filter
        (fun d => decide (d.value ≤ max_rate_on_rest))).map (·.value)
      let time_start := dataset.head?.map (·.time)
      let time_end := dataset.getLast?.map (·.time)
      let dur ← calculate_duration (time_start.getD "N/A") (time_end.getD "N/A")
      let duration := format_duration dur
      let dur_day ← (if day_data.isEmpty then pure (0 : Int)
        else calculate_duration (time_start_day.getD "N/A") (time_end_day.getD "N/A"))
      let duration_day := format_duration dur_day
      let dur_night ← (if night_data.isEmpty then pure (0 : Int)
        else calculate_duration (time_start_night.getD "N/A") (time_end_night.getD "N/A"))
      let duration_night := format_duration dur_night
      let day_periods ← calculate_period_durations day_data
      let night_periods ← calculate_period_durations night_data
      let avg_heart_rate : ℚ :=
        if dataset.isEmpty then 0 else mean_of (dataset.map (·.value))
      let avg_heart_rate_active : ℚ :=
        if active_data.isEmpty then 120 else mean_of active_data
      let avg_heart_rate_resting : ℚ :=
        if resting_data.isEmpty then 80 else mean_of resting_data
      let avg_heart_rate_day : ℚ :=
        if day_data.isEmpty then 0 else mean_of (day_data.map (·.value))
      let avg_heart_rate_day_active : ℚ :=
        if active_day_data.isEmpty then 120 else mean_of active_day_data
      let avg_heart_rate_day_resting : ℚ :=
        if resting_day_data.isEmpty then 80 else mean_of resting_day_data
      let avg_heart_rate_night : ℚ :=
        if night_data.isEmpty then 0 else mean_of (night_data.map (·.value))
      let avg_heart_rate_night_active : ℚ :=
        if active_night_data.isEmpty then 120 else mean_of active_night_data
      let avg_heart_rate_night_resting : ℚ :=
        if resting_night_data.isEmpty then 80 else mean_of resting_night_data
      let blood_pressure :=
        s!"{pyRound avg_heart_rate_active} / {pyRound avg_heart_rate_resting}"
      pure (some
        { Id_dispositivo := device_id,
          DateTime := date,
          TimeStart := time_start,
          TimeEnd := time_end,
          Duration := duration,
          TimeStartDay := time_start_day,
          TimeEndDay := time_end_day,
          DurationDay := duration_day,
          TimeStartNight := time_start_night,
          TimeEndNight := time_end_night,
          DurationNight := duration_night,
          dataset_Interval := interval,
          dataset_type := dataset_type,
          average_HeartValue := round_to 4 avg_heart_rate,
          average_HeartValue_Activity := round_to 2 avg_heart_rate_active,
          average_HeartValue_Resting := round_to 2 avg_heart_rate_resting,
          average_HeartValue_Day := round_to 2 avg_heart_rate_day,
          average_HeartValue_Day_Activity := round_to 2 avg_heart_rate_day_active,
          average_HeartValue_Day_Activity_Duration := day_periods.1,
          average_HeartValue_Day_Resting := round_to 2 avg_heart_rate_day_resting,
          average_HeartValue_Day_Resting_Duration := day_periods.2,
          average_HeartValue_Night := round_to 2 avg_heart_rate_night,
          average_HeartValue_Night_Activity := round_to 2 avg_heart_rate_night_active,
          average_HeartValue_Night_Activity_Duration := night_periods.1,
          average_HeartValue_Night_Resting := round_to 2 avg_heart_rate_night_resting,
          average_HeartValue_Night_Resting_Duration := night_periods.2,
          BloodPreassure := blood_pressure })

/-- `extract_average_rate_data` over the list of daily rate payloads
(lines 356–462), before the final display-only date reformatting; `none`
models an uncaught parse exception. -/
def average_rate_records (device_id : String) (entries : List RateEntry) :
    Option (List AvgRateRecord) :=
  (entries.mapM (process_rate_entry device_id)).map (fun l => l.filterMap id)

/-- A concrete rate entry meeting C4's hypotheses: one night sample and one
day sample, all values truthy and at most 110. -/
def entryC4 : RateEntry :=
  ⟨["2023-03-05"],
    some ⟨some [⟨"08:00:00", 70⟩, ⟨"10:00:00", 80⟩], some 1, some "second"⟩⟩

theorem parseField_le {cs : List Char} {b n : Nat} (h : parseField cs b = some n) :
    n ≤ b := by
  unfold parseField at h
  split at h
  · simp at h
  · split at h
    · split at h
      · cases h; assumption
      · simp at h
    · simp at h

theorem strptime_HMS_lt {s : String} {n : Nat} (h : strptime_HMS s = some n) :
    n < 86400 := by
  unfold strptime_HMS at h
  split at h
  · simp only [bind, Option.bind_eq_some, pure, Option.some.injEq] at h
    obtain ⟨hv, hhv, mv, hmv, sv, hsv, hn⟩ := h
    have h1 := parseField_le hhv
    have h2 := parseField_le hmv
    have h3 := parseField_le hsv
    omega
  · simp at h

theorem strptime_HMS_NA : strptime_HMS "N/A" = none := by decide

theorem calculate_duration_bounds {s e : String} {d : Int}
    (h : calculate_duration s e = some d) : 0 ≤ d ∧ d < 2 * 86400 := by
  unfold calculate_duration at h
  split at h
  · cases h; omega
  · simp only [bind, Option.bind_eq_some, pure, Option.some.injEq] at h
    obtain ⟨a, ha, b, hb, hd⟩ := h
    have ha' := strptime_HMS_lt ha
    have hb' := strptime_HMS_lt hb
    subst hd
    split <;> omega

theorem calculate_duration_nonneg {s e : String} {d : Int}
    (h : calculate_duration s e = some d) : 0 ≤ d :=
  (calculate_duration_bounds h).1

theorem cpd_go_nonneg {l : List Sample} {act rst : Int} {start prev : String}
    {ptype : Bool} {p : Int × Int} (hact : 0 ≤ act) (hrst : 0 ≤ rst)
    (h : calculate_period_durations_go act rst start ptype prev l = some p) :
    0 ≤ p.1 ∧ 0 ≤ p.2 := by
  induction l generalizing act rst start prev ptype with
  | nil =>
    unfold calculate_period_durations_go at h
    simp only [bind, Option.bind_eq_some, pure, Option.some.injEq] at h
    obtain ⟨d, hd, hp⟩ := h
    have hd0 := calculate_duration_nonneg hd
    subst hp
    cases ptype <;> simp <;> omega
  | cons a l ih =>
    unfold calculate_period_durations_go at h
    split at h
    · exact ih hact hrst h
    · simp only [bind, Option.bind_eq_some] at h
      obtain ⟨d, hd, hc⟩ := h
      have hd0 := calculate_duration_nonneg hd
      split at hc
      · exact ih (by omega) hrst hc
      · exact ih hact (by omega) hc

theorem calculate_period_durations_totals_nonneg {data : List Sample}
    {act rst : Int} (h : calculate_period_durations_totals data = some (act, rst)) :
    0 ≤ act ∧ 0 ≤ rst := by
  cases data with
  | nil => unfold calculate_period_durations_totals at h; cases h; omega
  | cons a l =>
    exact cpd_go_nonneg (le_refl 0) (le_refl 0) h

theorem cpd_go_uniform {rest : List Sample} {act rst : Int} {start prev : String}
    {ptype : Bool} (h : ∀ s ∈ rest, is_active s = ptype) :
    calculate_period_durations_go act rst start ptype prev rest =
      (calculate_duration start (last_time prev rest)).map
        (fun d => if ptype then (act + d, rst) else (act, rst + d)) := by
  induction rest generalizing prev with
  | nil =>
    cases hcd : calculate_duration start prev <;>
      simp [calculate_period_durations_go, last_time, hcd, bind]
  | cons e r ih =>
    have he : is_active e = ptype := h e (List.mem_cons_self e r)
    unfold calculate_period_durations_go
    rw [if_pos he, ih (fun s hs => h s (List.mem_cons_of_mem e hs))]
    rfl

/-- C1 (counterexample): on `[(00:00:00, 100), (00:01:00, 120)]` the
segmentation totals are both 0 (each single-sample run closes against its own
start), while duration-between(first, last) is 60 seconds — so active total
plus resting total does not equal the first-to-last duration. -/
theorem C1_counterexample :
    calculate_period_durations_totals [⟨"00:00:00", 100⟩, ⟨"00:01:00", 120⟩]
        = some (0, 0) ∧
      calculate_duration "00:00:00" "00:01:00" = some 60 ∧
      (0 : Int) + 0 ≠ 60 := by
  refine ⟨by decide, by decide, by decide⟩

/-- C1 (amended): for a non-empty sample sequence in which every sample has
the same threshold classification as the first (a single run), the active
total plus the resting total equals duration-between(first sample's time,
last sample's time); when the classification changes mid-sequence the
equality fails, because the gap between consecutive runs is dropped. -/
theorem C1_theorem (a : Sample) (l : List Sample) (d : Int)
    (huniform : ∀ s ∈ a :: l, is_active s = is_active a)
    (hd : calculate_duration a.time (last_time a.time l) = some d) :
    (calculate_period_durations_totals (a :: l)).map (fun p => p.1 + p.2)
      = some d := by
  simp only [calculate_period_durations_totals]
  rw [cpd_go_uniform (fun s hs => huniform s (List.mem_cons_of_mem a hs)), hd]
  cases h : is_active a <;> simp

theorem C1_witness :
    (calculate_period_durations_totals [⟨"00:00:00", 100⟩, ⟨"00:05:00", 90⟩]).map
        (fun p => p.1 + p.2) = some 300 :=
  C1_theorem ⟨"00:00:00", 100⟩ [⟨"00:05:00", 90⟩] 300 (by decide) (by decide)

theorem calculate_duration_of_parses {s e : String} {a b : Nat}
    (ha : strptime_HMS s = some a) (hb : strptime_HMS e = some b) :
    calculate_duration s e =
      some (if (b : Int) < (a : Int)
        then (b : Int) + 86400 - (a : Int) else (b : Int) - (a : Int)) := by
  have hsNA : s ≠ "N/A" := fun hs => by rw [hs, strptime_HMS_NA] at ha; cases ha
  have heNA : e ≠ "N/A" := fun hs => by rw [hs, strptime_HMS_NA] at hb; cases hb
  unfold calculate_duration
  rw [if_neg (by simp [hsNA, heNA]), ha]
  simp only [bind, Option.bind_eq_some, pure, Option.some.injEq, Option.some_bind, hb]
  split <;> ring_nf

/-- C7: `calculate_duration` returns 0 when either argument is the sentinel
`"N/A"`; otherwise it parses both `"HH:MM:SS"` strings and, when end < start,
adds 24 hours to end before subtracting; in particular
duration-between("23:30:00", "00:10:00") = 2400 seconds. -/
theorem C7_theorem :
    (∀ e, calculate_duration "N/A" e = some 0) ∧
      (∀ s, calculate_duration s "N/A" = some 0) ∧
      (∀ s e a b, strptime_HMS s = some a → strptime_HMS e = some b →
        calculate_duration s e =
          some (if (b : Int) < (a : Int)
            then (b : Int) + 86400 - (a : Int) else (b : Int) - (a : Int))) ∧
      calculate_duration "23:30:00" "00:10:00" = some 2400 :=
  ⟨fun e => by simp [calculate_duration], fun s => by simp [calculate_duration],
    fun s e a b ha hb => calculate_duration_of_parses ha hb, by decide⟩

theorem C7_witness :
    calculate_duration "N/A" "00:10:00" = some 0 ∧
      calculate_duration "12:00:00" "N/A" = some 0 ∧
      calculate_duration "23:30:00" "00:10:00" =
        some (if ((600 : Nat) : Int) < ((84600 : Nat) : Int)
          then ((600 : Nat) : Int) + 86400 - ((84600 : Nat) : Int)
          else ((600 : Nat) : Int) - ((84600 : Nat) : Int)) :=
  ⟨C7_theorem.1 "00:10:00", C7_theorem.2.1 "12:00:00",
    C7_theorem.2.2.1 "23:30:00" "00:10:00" 84600 600 (by decide) (by decide)⟩

/-- C9: for valid `"HH:MM:SS"` inputs `calculate_duration` yields a value in
`[0, 86400)`, and the active/resting totals of `calculate_period_durations`
are always non-negative. -/
theorem C9_theorem :
    (∀ s e a b, strptime_HMS s = some a → strptime_HMS e = some b →
      0 ≤ (calculate_duration s e).getD 0 ∧
        (calculate_duration s e).getD 0 < 86400 ∧
        (calculate_duration s e).isSome = true) ∧
      (∀ data act rst,
        calculate_period_durations_totals data = some (act, rst) →
          0 ≤ act ∧ 0 ≤ rst) := by
  constructor
  · intro s e a b ha hb
    have hval := calculate_duration_of_parses ha hb
    have ha' := strptime_HMS_lt ha
    have hb' := strptime_HMS_lt hb
    rw [hval]
    refine ⟨?_, ?_, rfl⟩ <;> simp only [Option.getD_some] <;> split <;> omega
  · intro data act rst h
    exact calculate_period_durations_totals_nonneg h

theorem C9_witness :
    (0 ≤ (calculate_duration "00:00:00" "00:00:30").getD 0 ∧
        (calculate_duration "00:00:00" "00:00:30").getD 0 < 86400 ∧
        (calculate_duration "00:00:00" "00:00:30").isSome = true) ∧
      (0 ≤ (0 : Int) ∧ 0 ≤ (300 : Int)) :=
  ⟨C9_theorem.1 "00:00:00" "00:00:30" 0 30 (by decide) (by decide),
    C9_theorem.2 [⟨"00:00:00", 100⟩, ⟨"00:05:00", 90⟩] 0 300 (by decide)⟩

/-- C8: each of the three quota fields is set to the value of its named
header when that header is present, and left exactly unchanged when that
header is absent. -/
theorem C8_theorem (h : RespHeaders) (rl : RateLimit) :
    ((∀ v, h.fitbit_rate_limit_limit = some v →
        (update_rate_limit h rl).limit = v) ∧
      (h.fitbit_rate_limit_limit = none →
        (update_rate_limit h rl).limit = rl.limit)) ∧
    ((∀ v, h.fitbit_rate_limit_remaining = some v →
        (update_rate_limit h rl).remaining = v) ∧
      (h.fitbit_rate_limit_remaining = none →
        (update_rate_limit h rl).remaining = rl.remaining)) ∧
    ((∀ v, h.fitbit_rate_limit_reset = some v →
        (update_rate_limit h rl).reset = v) ∧
      (h.fitbit_rate_limit_reset = none →
        (update_rate_limit h rl).reset = rl.reset)) := by
  refine ⟨⟨fun v hv => ?_, fun hv => ?_⟩, ⟨fun v hv => ?_, fun hv => ?_⟩,
    ⟨fun v hv => ?_, fun hv => ?_⟩⟩ <;> simp [update_rate_limit, hv]

theorem C8_witness :
    (update_rate_limit ⟨some 149, none, some 5⟩ rate_limit_init).limit = 149 ∧
      (update_rate_limit ⟨some 149, none, some 5⟩ rate_limit_init).remaining =
        rate_limit_init.remaining ∧
      (update_rate_limit ⟨some 149, none, some 5⟩ rate_limit_init).reset = 5 :=
  ⟨(C8_theorem ⟨some 149, none, some 5⟩ rate_limit_init).1.1 149 rfl,
    (C8_theorem ⟨some 149, none, some 5⟩ rate_limit_init).2.1.2 rfl,
    (C8_theorem ⟨some 149, none, some 5⟩ rate_limit_init).2.2.1 5 rfl⟩

/-- C2 (counterexample): with `retries = 3` and three straight 500 responses,
`get_data` returns NotAvailable but the failure counter for the resource has
incremented by 3 (once per failed attempt), not by 1 as the claim states. -/
theorem C2_counterexample :
    (get_data 3 (3/2) [resp 500, resp 500, resp 500] fetch_state_init).map
        (fun o => (o.state.failed, o.isPayload)) = some (3, false) ∧
      (3 : Nat) ≠ 1 :=
  ⟨by decide, by decide⟩

/-- C2 (amended): for every fetch with `retries = 3` in which all three
attempts return a non-200, non-429 status, `get_data` returns NotAvailable
and the failure counter for that resource kind increments by exactly 3 —
one per failed attempt. -/
theorem C2_theorem (r1 r2 r3 : Response) (st : FetchState) (b : ℚ)
    (h1 : r1.status ≠ 200) (h1' : r1.status ≠ 429)
    (h2 : r2.status ≠ 200) (h2' : r2.status ≠ 429)
    (h3 : r3.status ≠ 200) (h3' : r3.status ≠ 429) :
    (get_data 3 b [r1, r2, r3] st).map (fun o => (o.state.failed, o.isPayload))
      = some (st.failed + 3, false) := by
  simp [get_data, get_data_go, h1, h1', h2, h2', h3, h3', FetchOutcome.state,
    FetchOutcome.isPayload]

theorem C2_witness :
    (get_data 3 (3/2) [resp 502, resp 502, resp 502] fetch_state_init).map
        (fun o => (o.state.failed, o.isPayload))
      = some (fetch_state_init.failed + 3, false) :=
  C2_theorem (resp 502) (resp 502) (resp 502) fetch_state_init (3/2)
    (by decide) (by decide) (by decide) (by decide) (by decide) (by decide)

/-- C3 (counterexample): a 429 response whose headers leave the tracked
`reset` at its value 0 makes the code sleep `(attempt+1) * backoff_factor`
= 3/2 seconds, not the claimed `max(reset, 0) + 1 = 1` seconds. -/
theorem C3_counterexample :
    (get_data 3 (3/2) [resp 429, resp 200] fetch_state_init).map
        (fun o => (o.state.sleeps, o.state.failed)) = some ([3/2], 0) ∧
      rate_limit_init.reset = 0 ∧
      ((3 : ℚ)/2) ≠ ((max rate_limit_init.reset 0 : Int) : ℚ) + 1 := by
  refine ⟨?_, rfl, ?_⟩
  · simp only [get_data, get_data_go, resp, fetch_state_init, rate_limit_init,
      update_rate_limit, FetchOutcome.state]
    norm_num
  · norm_num [rate_limit_init]

/-- C3 (amended): on a 429 response the loop updates the quota record from
the headers, sleeps `reset + 1` seconds when the updated reset is positive
and `(attempt+1) * backoff_factor` seconds otherwise, increments the attempt
counter, and leaves the failure counter (and the success/total counters)
unchanged. -/
theorem C3_theorem (retries : Nat) (b : ℚ) (r : Response) (rest : List Response)
    (attempt : Nat) (st : FetchState)
    (hlt : attempt < retries) (h429 : r.status = 429) :
    get_data_go retries b (r :: rest) attempt st =
      get_data_go retries b rest (attempt + 1)
        { st with
            rate_limit := update_rate_limit r.headers st.rate_limit,
            sleeps := st.sleeps ++
              [if 0 < (update_rate_limit r.headers st.rate_limit).reset
                then ((update_rate_limit r.headers st.rate_limit).reset : ℚ) + 1
                else ((attempt : ℚ) + 1) * b] } := by
  have h200 : r.status ≠ 200 := by omega
  by_cases hr : 0 < (update_rate_limit r.headers st.rate_limit).reset <;>
    simp [get_data_go, hlt, h429, h200, hr]

theorem C3_witness :
    get_data_go 3 (3/2) [resp 429] 0 fetch_state_init =
      get_data_go 3 (3/2) [] 1
        { fetch_state_init with
            rate_limit := update_rate_limit (resp 429).headers
              fetch_state_init.rate_limit,
            sleeps := fetch_state_init.sleeps ++
              [if 0 < (update_rate_limit (resp 429).headers
                    fetch_state_init.rate_limit).reset
                then ((update_rate_limit (resp 429).headers
                    fetch_state_init.rate_limit).reset : ℚ) + 1
                else (((0 : Nat) : ℚ) + 1) * (3/2)] } :=
  C3_theorem 3 (3/2) (resp 429) [] 0 fetch_state_init (by decide) (by decide)

/-- C5: admission control computes required = |resources| × |days| over the
inclusive date range and aborts before issuing any request exactly when
required exceeds the tracked remaining quota; with 6 resources and 5 days
(required = 30), remaining = 20 aborts and remaining = 30 proceeds, issuing
all 30 requests. -/
theorem C5_theorem :
    (∀ s e rem, get_all_data_for_date_ranges s e rem = none ↔
      (resources_list.length : Int) * (e - s + 1) > rem) ∧
      get_all_data_for_date_ranges 0 4 20 = none ∧
      (get_all_data_for_date_ranges 0 4 30).map List.length = some 30 := by
  refine ⟨fun s e rem => ?_, by decide, by decide⟩
  simp only [get_all_data_for_date_ranges, check_not_exceeded]
  split
  · rename_i h
    simp only [decide_eq_true_eq] at h
    simp [h]
  · rename_i h
    simp only [decide_eq_true_eq] at h
    simp [h]

theorem C5_witness :
    get_all_data_for_date_ranges 0 4 20 = none ∧
      get_all_data_for_date_ranges (-3) 1 29 = none :=
  ⟨C5_theorem.2.1, (C5_theorem.1 (-3) 1 29).mpr (by decide)⟩

theorem length_filter_add_length_filter_not {α : Type} (p : α → Bool) (l : List α) :
    (l.filter p).length + (l.filter (fun a => !p a)).length = l.length := by
  induction l with
  | nil => rfl
  | cons a l ih => by_cases h : p a <;> simp [List.filter_cons, h] <;> omega

/-- C6: after synthesizing a null-filled logId column when absent, the
partition into complete (logId present) and incomplete (logId absent) tables
is exhaustive and disjoint: the lengths add up to the joined table's length
(which the synthesis step preserves), and every row of the joined table is a
member of exactly one of the two outputs. -/
theorem C6_theorem (t : CombinedTable) :
    (join_and_save_partition t).1.length + (join_and_save_partition t).2.length
        = (ensure_logId_column t).rows.length ∧
      (ensure_logId_column t).rows.length = t.rows.length ∧
      (∀ r ∈ (ensure_logId_column t).rows,
        (r ∈ (join_and_save_partition t).1 ∧ r ∉ (join_and_save_partition t).2) ∨
        (r ∈ (join_and_save_partition t).2 ∧ r ∉ (join_and_save_partition t).1)) := by
  refine ⟨?_, ?_, ?_⟩
  · simpa [join_and_save_partition] using
      length_filter_add_length_filter_not complete_mask (ensure_logId_column t).rows
  · unfold ensure_logId_column
    split <;> simp
  · intro r hr
    by_cases h : complete_mask r
    · exact Or.inl ⟨List.mem_filter.mpr ⟨hr, h⟩,
        fun hmem => by simp [join_and_save_partition, List.mem_filter, h] at hmem⟩
    · exact Or.inr ⟨List.mem_filter.mpr ⟨hr, by simp [h]⟩,
        fun hmem => by simp [join_and_save_partition, List.mem_filter, h] at hmem⟩

theorem C6_witness :
    ((join_and_save_partition sample_table).1.length +
        (join_and_save_partition sample_table).2.length
          = (ensure_logId_column sample_table).rows.length) ∧
      (((⟨some 1, []⟩ : CombinedRow) ∈ (join_and_save_partition sample_table).1 ∧
          (⟨some 1, []⟩ : CombinedRow) ∉ (join_and_save_partition sample_table).2) ∨
        ((⟨some 1, []⟩ : CombinedRow) ∈ (join_and_save_partition sample_table).2 ∧
          (⟨some 1, []⟩ : CombinedRow) ∉ (join_and_save_partition sample_table).1)) :=
  ⟨(C6_theorem sample_table).1,
    (C6_theorem sample_table).2.2 ⟨some 1, []⟩ (by decide)⟩

theorem pyRound_intCast (z : Int) : pyRound ((z : Int) : ℚ) = z := by
  unfold pyRound
  rw [Int.floor_intCast]
  norm_num

theorem round_to_intCast (n : Nat) (z : Int) : round_to n ((z : Int) : ℚ) = z := by
  unfold round_to
  rw [show ((z : ℚ) * 10 ^ n) = (((z * 10 ^ n : Int) : Int) : ℚ) by push_cast; ring,
    pyRound_intCast]
  push_cast
  field_simp

theorem filter_map_value_nil {l : List Sample} (h : ∀ s ∈ l, s.value ≤ 110) :
    (l.filter (fun d => decide (110 < d.value))).map Sample.value = [] := by
  rw [List.filter_eq_nil_iff.mpr (fun a ha => by simpa using not_lt.mpr (h a ha))]
  rfl

/-- C10: a daily rate payload with no `'activities-heart-intraday'` key, or
with an empty (or absent, defaulting to empty) intraday dataset, contributes
no output record at all: the per-entry processing appends nothing and the
record list for the remaining entries is unchanged. -/
theorem C10_theorem (device_id : String) (entry : RateEntry)
    (rest : List RateEntry)
    (h : entry.activities_heart_intraday = none ∨
      ∃ i, entry.activities_heart_intraday = some i ∧ i.dataset.getD [] = []) :
    process_rate_entry device_id entry = some none ∧
      average_rate_records device_id (entry :: rest) =
        average_rate_records device_id rest := by
  have h1 : process_rate_entry device_id entry = some none := by
    rcases h with h | ⟨i, hi, hempty⟩
    · simp [process_rate_entry, h]
    · simp [process_rate_entry, hi, hempty]
  refine ⟨h1, ?_⟩
  unfold average_rate_records
  rw [List.mapM_cons, h1]
  cases hm : rest.mapM (process_rate_entry device_id) with
  | none => simp [hm]
  | some l => simp [hm, List.filterMap_cons]

theorem C10_witness :
    process_rate_entry "dev" ⟨[], none⟩ = some none ∧
      average_rate_records "dev" [⟨[], none⟩] = average_rate_records "dev" [] :=
  C10_theorem "dev" ⟨[], none⟩ [] (Or.inl rfl)

/-- C4: when every sample in the day window and every sample in the night
window has a truthy (non-zero) value and no sample in the dataset exceeds
110, the emitted record's full-day active mean and night active mean are
both exactly 120 (the empty-active-subset defaults at lines 416 and 424 of
DataFormatting.py). -/
theorem C4_theorem (device_id : String) (entry : RateEntry) (i : IntradayData)
    (rec : AvgRateRecord)
    (hintra : entry.activities_heart_intraday = some i)
    (hday : ∀ s ∈ (i.dataset.getD []).filter
      (fun d => str_le "09:00" d.time), s.value ≠ 0)
    (hnight : ∀ s ∈ (i.dataset.getD []).filter
      (fun d => str_le "00:00" d.time && str_lt d.time "09:00"), s.value ≠ 0)
    (hle : ∀ s ∈ i.dataset.getD [], s.value ≤ 110)
    (hrec : process_rate_entry device_id entry = some (some rec)) :
    rec.average_HeartValue_Activity = 120 ∧
      rec.average_HeartValue_Night_Activity = 120 := by
  simp only [process_rate_entry, hintra] at hrec
  split at hrec
  · simp at hrec
  · simp only [bind, Option.bind_eq_some, pure, Option.some.injEq] at hrec
    obtain ⟨dur, hdur, dur_day, hdd, dur_night, hdn, day_periods, hdp,
      night_periods, hnp, hrec⟩ := hrec
    have hactive : ((i.dataset.getD []).filter
        (fun d => decide (110 < d.value))).map Sample.value = [] :=
      filter_map_value_nil hle
    have hactive_night : (((i.dataset.getD []).filter
        (fun d => str_le "00:00" d.time && str_lt d.time "09:00")).filter
          (fun d => decide (110 < d.value))).map Sample.value = [] :=
      filter_map_value_nil (fun s hs => hle s (List.mem_of_mem_filter hs))
    rw [← hrec]
    constructor
    · simp only [hactive, List.isEmpty_nil, if_pos]
      simpa using round_to_intCast 2 120
    · simp only [hactive_night, List.isEmpty_nil, if_pos]
      simpa using round_to_intCast 2 120

theorem C4_witness :
    (process_rate_entry "dev" entryC4).elim False
      (fun o => o.elim False
        (fun rec => rec.average_HeartValue_Activity = 120 ∧
          rec.average_HeartValue_Night_Activity = 120)) := by
  cases hp : process_rate_entry "dev" entryC4 with
  | none => exact absurd hp (by decide)
  | some o =>
    cases o with
    | none => exact absurd hp (by decide)
    | some rec =>
      simp only [Option.elim]
      exact C4_theorem "dev" entryC4
        ⟨some [⟨"08:00:00", 70⟩, ⟨"10:00:00", 80⟩], some 1, some "second"⟩
        rec rfl (by decide) (by decide) (by decide) hp
